import Mathlib

/-!
Verification of the client-side game event reducer of the werewolf_arena
front-end.  The embedding follows the most complete GameRoom component
variant (the one holding the full `phase / round / players / debate /
voting / targetSelection / interaction` state record): its
`handleGameStateUpdate`, `updateBasedOnType`, `onDataReceived`,
`sendMessage` and `handleVote` functions are translated here one case at
a time.

Modelling conventions, chosen to mirror the JavaScript semantics:
* `x || y` on numbers is `jsOrNat` (0, `null` and `undefined` fall back),
  on strings `jsOrStr` ("" falls back); on arrays and objects only
  `null`/`undefined` fall back, which `Option.getD` captures.
* JavaScript object maps (`voting.votes`) are association lists where an
  assignment overwrites the binding in place (`setVote`).
* `Math.max(0, a - b)` on the nonnegative game counters is truncated
  natural subtraction `a - b`.
* `Date.now()` and wall-clock timestamps enter as an explicit `now`
  argument.
* `setTimeout`/`clearTimeout` for the speak auto-clear are modelled by an
  explicit timer list in `ClientState`; times are in milliseconds as in
  the source (`timeout * 1000`).
-/

namespace WerewolfClient

/-- JavaScript `a || b` for numeric fields: `0`, `null` and `undefined`
are falsy, so they select the fallback. -/
def jsOrNat (o : Option Nat) (d : Nat) : Nat :=
  match o with
  | some n => if n = 0 then d else n
  | none => d

/-- JavaScript `a || b` for string fields: `""`, `null` and `undefined`
are falsy, so they select the fallback. -/
def jsOrStr (o : Option String) (d : String) : String :=
  match o with
  | some s => if s = "" then d else s
  | none => d

/-- A player entry of `gameState.players`. -/
structure Player where
  id : String
  name : String
  role : String
  isAlive : Bool
deriving DecidableEq

/-- A player object inside an inbound `game_state` payload; every field
except the identity may be absent. -/
structure PlayerIn where
  id : String
  name : Option String
  role : Option String
  isAlive : Option Bool
deriving DecidableEq

/-- One `debate.history` entry; the source stores the raw (possibly
absent) payload fields. -/
structure HistEntry where
  speaker : Option String
  dialogue : Option String
  turn : Option Nat
deriving DecidableEq

/-- One `announcements` entry; `id` and `timestamp` come from the wall
clock (`Date.now()`), passed in as `now`. -/
structure Ann where
  id : Nat
  message : String
  timestamp : Nat
deriving DecidableEq

/-- The `debate` sub-record of the game state. -/
structure DebateState where
  current_speaker : Option String
  current_turn : Nat
  max_turns : Nat
  history : List HistEntry
  turns_left : Nat
deriving DecidableEq

/-- The votes map: a JavaScript object keyed by voter id. -/
abbrev VotesMap := List (String × String)

/-- The `voting` sub-record of the game state. -/
structure VotingState where
  active : Bool
  votes : VotesMap
  voted_player : Option String
  results : Option VotesMap
deriving DecidableEq

/-- The `targetSelection` sub-record of the game state. -/
structure TargetSelectionState where
  active : Bool
  action : Option String
  options : List String
  prompt : String
deriving DecidableEq

/-- The `interaction` sub-record of the game state. -/
structure InteractionState where
  can_speak : Bool
  speak_timeout : Option Nat
  speaking_prompt : String
deriving DecidableEq

/-- The local identity's view (`currentPlayer`). -/
structure CurrentPlayer where
  id : Option String
  name : String
  role : String
  isHost : Bool
deriving DecidableEq

/-- The complete client game state held by the component. -/
structure GameState where
  phase : String
  round : Nat
  players : List Player
  currentPlayer : CurrentPlayer
  logs : List String
  announcements : List Ann
  debate : DebateState
  voting : VotingState
  targetSelection : TargetSelectionState
  interaction : InteractionState
deriving DecidableEq

/-- The full `game_state` payload consumed by `handleGameStateUpdate`;
every field is optional on the wire. -/
structure GSPayload where
  players : Option (List PlayerIn)
  current_players : Option (List String)
  phase : Option String
  round : Option Nat
  observations : Option (List String)
  role : Option String
  debate_turns_left : Option Nat
  num_players : Option Nat
deriving DecidableEq

/-- The `data` payload of a `request_target_selection` message. -/
structure TargetData where
  action : Option String
  options : Option (List String)
  prompt : Option String
deriving DecidableEq

/-- The nested `update_type` discriminant of a `game_state_update`
message, with the `message.data` fields each case reads. -/
inductive UpdType where
  | dayPhaseStart (round : Option Nat)
  | nightPhaseStart (round : Option Nat)
  | debateUpdate (speaker : Option String) (dialogue : Option String) (turn : Option Nat)
  | votingPhase
  | votingStarted
  | voteReceived (voter : String) (target : String)
  | votingEnded (votes : Option VotesMap)
  | votingResults (results : Option VotesMap)
  | playerExiled (player : Option String)
  | unknownUpdate (tag : String)
deriving DecidableEq

/-- A decoded inbound message, discriminated by the outer `type` field.
`gameStateUpdate` optionally carries a full `game_state` payload and a
nested `update_type`; `unknown` stands for any unrecognized outer type. -/
inductive Msg where
  | gameStateUpdate (game_state : Option GSPayload) (update_type : Option UpdType)
  | canSpeak (timeout : Option Nat) (prompt : Option String)
  | speakingEnded
  | debateTurn
  | requestVote
  | announcement (text : Option String)
  | requestTargetSelection (data : Option TargetData)
  | unknown (tag : String)
deriving DecidableEq

/-- JavaScript object assignment `{ ...votes, [voter]: target }`:
overwrite the binding in place, or append a new one. -/
def setVote : VotesMap → String → String → VotesMap
  | [], k, v => [(k, v)]
  | (k', v') :: rest, k, v =>
      if k' = k then (k, v) :: rest else (k', v') :: setVote rest k v

/-- Lookup in the votes map by voter id. -/
def lookupVote : VotesMap → String → Option String
  | [], _ => none
  | (k, v) :: rest, q => if k = q then some v else lookupVote rest q

/-- The spread merge `{ ...existingPlayer, ...player, isAlive: player.isAlive !== undefined ? player.isAlive : true }`
performed for each payload player, matching the existing entry by id. -/
def mergePlayer (prev : List Player) (pin : PlayerIn) : Player :=
  match prev.find? (fun p => p.id == pin.id) with
  | some ex =>
      { id := pin.id
        name := pin.name.getD ex.name
        role := pin.role.getD ex.role
        isAlive := pin.isAlive.getD true }
  | none =>
      { id := pin.id
        name := pin.name.getD ""
        role := pin.role.getD ""
        isAlive := pin.isAlive.getD true }

/-- The `current_players` pass: alive iff `player.id || player.name` is
listed. -/
def aliveFromCurrent (cur : List String) (p : Player) : Player :=
  { p with isAlive := cur.contains (if p.id = "" then p.name else p.id) }

/-- Translation of `handleGameStateUpdate`: the full-state merge applied
when a message carries a `game_state` payload. -/
def handleGameStateUpdate (gs : GSPayload) (prev : GameState) : GameState :=
  let updated0 := (gs.players.getD []).map (mergePlayer prev.players)
  let updated :=
    match gs.current_players with
    | some cur => updated0.map (aliveFromCurrent cur)
    | none => updated0
  { prev with
    phase := jsOrStr gs.phase prev.phase
    round := jsOrNat gs.round prev.round
    players := updated
    logs := gs.observations.getD prev.logs
    currentPlayer :=
      { prev.currentPlayer with role := jsOrStr gs.role prev.currentPlayer.role }
    debate :=
      { prev.debate with
        turns_left := jsOrNat gs.debate_turns_left prev.debate.turns_left
        max_turns := jsOrNat gs.num_players prev.debate.max_turns } }

/-- The map body of the `player_exiled` case:
`p.id === exiled || p.name === exiled ? { ...p, isAlive: false } : p`. -/
def exileFn (x? : Option String) (p : Player) : Player :=
  match x? with
  | some x => if p.id = x ∨ p.name = x then { p with isAlive := false } else p
  | none => p

/-- Translation of `updateBasedOnType`: the per-`update_type` delta
transition of a `game_state_update` message. -/
def updateBasedOnType (s : GameState) (ut : UpdType) : GameState :=
  match ut with
  | .dayPhaseStart round? =>
      { s with
        phase := "day"
        round := jsOrNat round? s.round
        debate := { s.debate with current_speaker := none, current_turn := 0, history := [] }
        voting := { s.voting with active := false, voted_player := none, votes := [] }
        interaction := { s.interaction with can_speak := false } }
  | .nightPhaseStart round? =>
      { s with
        phase := "night"
        round := jsOrNat round? s.round
        interaction := { s.interaction with can_speak := false } }
  | .debateUpdate speaker? dialogue? turn? =>
      let t := jsOrNat turn? (s.debate.current_turn + 1)
      { s with
        phase := "day"
        debate :=
          { s.debate with
            current_speaker := speaker?
            current_turn := t
            history := s.debate.history ++ [⟨speaker?, dialogue?, turn?⟩]
            turns_left := s.debate.max_turns - t } }
  | .votingPhase =>
      { s with
        phase := "voting"
        interaction := { s.interaction with can_speak := false } }
  | .votingStarted =>
      { s with voting := { s.voting with active := true, votes := [], voted_player := none } }
  | .voteReceived voter target =>
      { s with voting := { s.voting with votes := setVote s.voting.votes voter target } }
  | .votingEnded votes? =>
      { s with voting := { s.voting with active := false, results := some (votes?.getD s.voting.votes) } }
  | .votingResults results? =>
      { s with voting := { s.voting with results := results? } }
  | .playerExiled player? =>
      { s with players := s.players.map (exileFn player?) }
  | .unknownUpdate _ => s

/-- Translation of the `onDataReceived` message switch for a decoded
message: the result state plus the warn/error diagnostics the branch
emits (the unconditional per-message debug trace is not counted). -/
def applyMessage (now : Nat) (s : GameState) (m : Msg) : GameState × List String :=
  match m with
  | .gameStateUpdate gs? ut? =>
      let s1 := match gs? with | some gs => handleGameStateUpdate gs s | none => s
      let s2 := match ut? with | some ut => updateBasedOnType s1 ut | none => s1
      (s2, [])
  | .canSpeak _ prompt? =>
      ({ s with
          interaction :=
            { s.interaction with
              can_speak := true
              speaking_prompt := jsOrStr prompt? "You can speak now!" } }, [])
  | .speakingEnded =>
      ({ s with
          interaction := { s.interaction with can_speak := false, speaking_prompt := "" } }, [])
  | .debateTurn =>
      ({ s with
          interaction :=
            { s.interaction with
              can_speak := true
              speaking_prompt := "It\x27s your turn to speak!" } }, [])
  | .requestVote =>
      ({ s with voting := { s.voting with active := true, voted_player := none } }, [])
  | .announcement text? =>
      match text? with
      | some t =>
          if t = "" then (s, [])
          else ({ s with announcements := s.announcements ++ [⟨now, t, now⟩] }, [])
      | none => (s, [])
  | .requestTargetSelection d? =>
      match d? with
      | some d =>
          ({ s with
              targetSelection :=
                { active := true
                  action := d.action
                  options := d.options.getD []
                  prompt := d.prompt.getD "" } }, [])
      | none => (s, [])
  | .unknown tag => (s, ["Unknown message type: " ++ tag])

/-- The decode wrapper of `onDataReceived`: `JSON.parse` inside
`try/catch` is an `Option`-valued decode; a failed decode is dropped
with one error line and cannot reach the reducer. -/
def onDataReceived (now : Nat) (s : GameState) (decoded : Option Msg) : GameState × List String :=
  match decoded with
  | some m => applyMessage now s m
  | none => (s, ["Failed to parse data message"])

/-- The initial game state built in the component's `useState`. -/
def initState (localId : Option String) (playerName playerRole : String) : GameState :=
  { phase := "lobby"
    round := 0
    players := []
    currentPlayer := { id := localId, name := playerName, role := playerRole, isHost := false }
    logs := []
    announcements := []
    debate := { current_speaker := none, current_turn := 0, max_turns := 8, history := [], turns_left := 8 }
    voting := { active := false, votes := [], voted_player := none, results := none }
    targetSelection := { active := false, action := none, options := [], prompt := "" }
    interaction := { can_speak := false, speak_timeout := none, speaking_prompt := "" } }

/-- States reachable from some initial state by reducer transitions. -/
inductive Reachable : GameState → Prop where
  | init : ∀ lid n r, Reachable (initState lid n r)
  | step : ∀ (s : GameState) (now : Nat) (m : Msg), Reachable s → Reachable (applyMessage now s m).1

/-- An outbound message built by the Outbound Action Encoder. -/
inductive OutMsg where
  | vote (target : String)
  | targetSelection (target : String)
deriving DecidableEq

/-- The transport collaborator: `publishData` on the encoded message
either accepts it (`some ()`) or throws (`none`).  `JSON.stringify` of
these fixed-shape objects is injective, so the encoded payload is
identified with the message itself. -/
abbrev Transport := OutMsg → Option Unit

/-- Translation of `sendMessage`: `false` when no room is set or the
publish call throws (the exception is caught and logged); the second
component is the payload the transport actually accepted, for
specification purposes.  The function is total: nothing propagates to
the caller. -/
def sendMessage (room : Option Transport) (m : OutMsg) : Bool × Option OutMsg :=
  match room with
  | none => (false, none)
  | some pub =>
      match pub m with
      | some _ => (true, some m)
      | none => (false, none)

/-- Translation of `handleVote`: publish the vote message and
optimistically record `voting.voted_player` (regardless of the publish
result, as in the source). -/
def handleVote (room : Option Transport) (s : GameState) (playerId : String) :
    GameState × Option OutMsg :=
  match room with
  | none => (s, none)
  | some pub =>
      let sent := sendMessage (some pub) (.vote playerId)
      ({ s with voting := { s.voting with voted_player := some playerId } }, sent.2)

/-- A pending `setTimeout` handle: when it fires and when it was
scheduled (its identity for `clearTimeout`). -/
structure Timer where
  fireTime : Nat
  id : Nat
deriving DecidableEq

/-- The component state including the timer bookkeeping around the
reducer: the pending timers of the runtime, the `speakTimeoutRef`
handle, and a fresh-id counter. -/
structure ClientState where
  game : GameState
  timers : List Timer
  speakRef : Option Nat
  nextId : Nat
deriving DecidableEq

/-- The timer callback body: clear `can_speak` and the prompt. -/
def clearSpeak (g : GameState) : GameState :=
  { g with interaction := { g.interaction with can_speak := false, speaking_prompt := "" } }

/-- Fire every pending timer due at or before `t` (each one runs the
idempotent speak-clear callback) and drop them from the pending list. -/
def fireDue (c : ClientState) (t : Nat) : ClientState :=
  if c.timers.any (fun tm => decide (tm.fireTime ≤ t)) then
    { c with
      game := clearSpeak c.game
      timers := c.timers.filter (fun tm => decide (t < tm.fireTime)) }
  else c

/-- The `clearTimeout(speakTimeoutRef.current)` step: cancel the timer
named by the stored handle, if any. -/
def cancelSpeak (c : ClientState) : ClientState :=
  match c.speakRef with
  | some h => { c with timers := c.timers.filter (fun tm => decide (tm.id ≠ h)) }
  | none => c

/-- One timed event: due timers fire first, then the message is handled.
A `can_speak` message cancels the stored handle before scheduling its
own auto-clear `timeout * 1000` (default 5000) milliseconds later and
storing the fresh handle in `speakTimeoutRef`. -/
def clientStep (c : ClientState) (ev : Nat × Msg) : ClientState :=
  let t := ev.1
  match ev.2 with
  | .canSpeak timeout? prompt? =>
      let c2 := cancelSpeak (fireDue c t)
      { c2 with
        game := (applyMessage t c2.game (.canSpeak timeout? prompt?)).1
        timers := c2.timers ++ [⟨t + (jsOrNat timeout? 5) * 1000, c2.nextId⟩]
        speakRef := some c2.nextId
        nextId := c2.nextId + 1 }
  | m =>
      let c1 := fireDue c t
      { c1 with game := (applyMessage t c1.game m).1 }

/-- Process a time-ordered list of inbound messages. -/
def runTimed (c : ClientState) (evs : List (Nat × Msg)) : ClientState :=
  evs.foldl clientStep c

/-- Observe the game state at time `t` after the last event: timers due
by then have fired. -/
def stateAt (c : ClientState) (t : Nat) : GameState :=
  (fireDue c t).game

/-- A freshly mounted component: no pending timer, empty handle. -/
def initClientOf (g : GameState) : ClientState :=
  { game := g, timers := [], speakRef := none, nextId := 0 }

/-- Timer sanity: at most one speak timer is pending, and every pending
timer is the one named by `speakTimeoutRef`. -/
def TimerInv (c : ClientState) : Prop :=
  c.timers.length ≤ 1 ∧ ∀ tm ∈ c.timers, c.speakRef = some tm.id

instance (c : ClientState) : Decidable (TimerInv c) := by
  unfold TimerInv
  infer_instance

/-! Concrete inputs used by the scenario theorems, counterexamples and
witnesses. -/

/-- The wire message `{type:"game_state_update", update_type:"player_exiled", data:{player:x}}`. -/
def exileMsg (x : String) : Msg :=
  .gameStateUpdate none (some (.playerExiled (some x)))

/-- The wire message `{type:"game_state_update", update_type:"vote_received", data:{voter, target}}`. -/
def voteMsg (voter target : String) : Msg :=
  .gameStateUpdate none (some (.voteReceived voter target))

/-- A session joined as player `me` with role `villager`. -/
def sInit : GameState := initState (some "me") "me" "villager"

/-- An empty `game_state` payload, to fill only the fields a test needs. -/
def emptyGS : GSPayload :=
  { players := none, current_players := none, phase := none, round := none
    observations := none, role := none, debate_turns_left := none, num_players := none }

/-- The payload players `[A, B, C]` of the day-start scenario. -/
def dayStartGS : GSPayload :=
  { emptyGS with
    players := some [⟨"A", none, none, none⟩, ⟨"B", none, none, none⟩, ⟨"C", none, none, none⟩] }

/-- The `day_phase_start{round:1, players:[A,B,C]}` message: the players
travel in the full `game_state` payload (merged first), the round in the
delta's `data`, per the dual-update pattern of the handler. -/
def dayStartMsg : Msg :=
  .gameStateUpdate (some dayStartGS) (some (.dayPhaseStart (some 1)))

/-! Association-list lemmas for the votes map. -/

/-- Writing a voter's target makes that voter's lookup return it. -/
theorem lookupVote_setVote_self (m : VotesMap) (k v : String) :
    lookupVote (setVote m k v) k = some v := by
  induction m with
  | nil => simp [setVote, lookupVote]
  | cons kv rest ih =>
    obtain ⟨k', v'⟩ := kv
    by_cases h : k' = k
    · simp [setVote, lookupVote, h]
    · simp [setVote, lookupVote, h, ih]

/-- Writing one voter's target leaves every other voter's lookup as it
was. -/
theorem lookupVote_setVote_other (m : VotesMap) (k v k' : String) (h : k' ≠ k) :
    lookupVote (setVote m k v) k' = lookupVote m k' := by
  have hkk' : ¬ k = k' := fun e => h e.symm
  induction m with
  | nil => simp [setVote, lookupVote, hkk']
  | cons kv rest ih =>
    obtain ⟨a, b⟩ := kv
    by_cases hak : a = k
    · subst hak
      simp [setVote, lookupVote, hkk']
    · simp [setVote, lookupVote, hak, ih]

/-- C1: for any state, applying `vote_received{voter:A,target:X}` then
`vote_received{voter:A,target:Y}` leaves `voting.votes[A] = Y`, and the
entries of all other voters exactly as before (last write wins). -/
theorem vote_received_last_write_wins (now1 now2 : Nat) (s : GameState) (A X Y : String) :
    lookupVote ((applyMessage now2 (applyMessage now1 s (voteMsg A X)).1 (voteMsg A Y)).1).voting.votes A
      = some Y
    ∧ ∀ B : String, B ≠ A →
        lookupVote ((applyMessage now2 (applyMessage now1 s (voteMsg A X)).1 (voteMsg A Y)).1).voting.votes B
          = lookupVote s.voting.votes B := by
  constructor
  · simp only [voteMsg, applyMessage, updateBasedOnType]
    exact lookupVote_setVote_self _ A Y
  · intro B hB
    simp only [voteMsg, applyMessage, updateBasedOnType]
    rw [lookupVote_setVote_other _ _ _ _ hB, lookupVote_setVote_other _ _ _ _ hB]

/-- Witness for C1 at a concrete state and voters. -/
theorem vote_received_last_write_wins_witness :
    lookupVote ((applyMessage 0 (applyMessage 0 sInit (voteMsg "A" "X")).1 (voteMsg "A" "Y")).1).voting.votes "A"
      = some "Y"
    ∧ lookupVote ((applyMessage 0 (applyMessage 0 sInit (voteMsg "A" "X")).1 (voteMsg "A" "Y")).1).voting.votes "B"
      = lookupVote sInit.voting.votes "B" :=
  ⟨(vote_received_last_write_wins 0 0 sInit "A" "X" "Y").1,
   (vote_received_last_write_wins 0 0 sInit "A" "X" "Y").2 "B" (by decide)⟩

/-! Lemmas for the exile transition. -/

/-- The exile map body is idempotent on a player. -/
theorem exileFn_idem (x? : Option String) (p : Player) :
    exileFn x? (exileFn x? p) = exileFn x? p := by
  cases x? with
  | none => rfl
  | some x =>
    by_cases h : p.id = x ∨ p.name = x
    · simp [exileFn, h]
    · simp [exileFn, h]

/-- Mapping the exile body twice over the players equals mapping once. -/
theorem map_exileFn_idem (x? : Option String) (l : List Player) :
    (l.map (exileFn x?)).map (exileFn x?) = l.map (exileFn x?) := by
  induction l with
  | nil => rfl
  | cons p ps ih => simp [exileFn_idem, ih]

/-- A one-player state used by the exile witness. -/
def c2State : GameState :=
  { sInit with players := [⟨"A", "A", "villager", true⟩] }

/-- C2: `player_exiled` is idempotent — applying it twice for the same
player yields the same state as applying it once, and every player
matching the given identifier (by id or by name) ends with
`isAlive = false`. -/
theorem player_exiled_idempotent (now1 now2 : Nat) (s : GameState) (x : String) :
    (applyMessage now2 (applyMessage now1 s (exileMsg x)).1 (exileMsg x)).1
      = (applyMessage now1 s (exileMsg x)).1
    ∧ ∀ p ∈ ((applyMessage now1 s (exileMsg x)).1).players,
        p.id = x ∨ p.name = x → p.isAlive = false := by
  constructor
  · simp [exileMsg, applyMessage, updateBasedOnType, map_exileFn_idem, exileFn_idem]
  · intro p hp hm
    simp only [exileMsg, applyMessage, updateBasedOnType] at hp
    rcases List.mem_map.mp hp with ⟨q, _, rfl⟩
    by_cases h : q.id = x ∨ q.name = x
    · simp [exileFn, h]
    · simp only [exileFn, if_neg h] at hm ⊢
      exact absurd hm h

/-- Witness for C2 at a concrete one-player state. -/
theorem player_exiled_idempotent_witness :
    (applyMessage 0 (applyMessage 0 c2State (exileMsg "A")).1 (exileMsg "A")).1
      = (applyMessage 0 c2State (exileMsg "A")).1
    ∧ ((applyMessage 0 c2State (exileMsg "A")).1).players = [⟨"A", "A", "villager", false⟩] :=
  ⟨(player_exiled_idempotent 0 0 c2State "A").1, by decide⟩

/-- C3: from the initial lobby state, `day_phase_start{round:1,
players:[A,B,C]}` yields phase `day`, round 1, exactly 3 players, empty
debate history, no current speaker, turn 0, and inactive voting. -/
theorem day_phase_start_from_lobby :
    (applyMessage 0 sInit dayStartMsg).1.phase = "day"
    ∧ (applyMessage 0 sInit dayStartMsg).1.round = 1
    ∧ (applyMessage 0 sInit dayStartMsg).1.players.length = 3
    ∧ (applyMessage 0 sInit dayStartMsg).1.debate.history = []
    ∧ (applyMessage 0 sInit dayStartMsg).1.debate.current_speaker = none
    ∧ (applyMessage 0 sInit dayStartMsg).1.debate.current_turn = 0
    ∧ (applyMessage 0 sInit dayStartMsg).1.voting.active = false := by
  decide

/-- C7: a payload whose decode fails is dropped: the state is returned
exactly unchanged and exactly one decode-error line is reported.  (The
Lean function is total, mirroring the `try/catch` that keeps any
exception from escaping the handler.) -/
theorem decode_failure_drops_payload (now : Nat) (s : GameState) :
    (onDataReceived now s none).1 = s
    ∧ (onDataReceived now s none).2 = ["Failed to parse data message"]
    ∧ (onDataReceived now s none).2.length = 1 :=
  ⟨rfl, rfl, rfl⟩

/-- The `{type:"game_state_update", update_type:"frobnicate"}` message
(no `game_state` payload): its nested default branch is silent. -/
def nestedUnknownMsg : Msg := .gameStateUpdate none (some (.unknownUpdate "frobnicate"))

/-- Counterexample to C8: an unrecognized *nested* `update_type` leaves
the state unchanged but emits zero log lines, not exactly one — the
inner default branch of `updateBasedOnType` is silent. -/
theorem unknown_kind_one_log_cex :
    (applyMessage 0 sInit nestedUnknownMsg).1 = sInit
    ∧ (applyMessage 0 sInit nestedUnknownMsg).2.length ≠ 1 := by
  decide

/-- C8 (amended): an unrecognized outer `type` leaves the state
bit-for-bit unchanged and emits exactly one log line (the fail-open
warn), as does `{type:"frobnicate"}`; a `game_state_update` whose
`update_type` is unrecognized or absent (and carrying no `game_state`)
also leaves the state unchanged but emits no log line. -/
theorem unknown_kind_fail_open :
    (∀ (now : Nat) (s : GameState) (tag : String),
        applyMessage now s (.unknown tag) = (s, ["Unknown message type: " ++ tag]))
    ∧ (∀ (now : Nat) (s : GameState) (tag : String),
        applyMessage now s (.gameStateUpdate none (some (.unknownUpdate tag))) = (s, []))
    ∧ (∀ (now : Nat) (s : GameState),
        applyMessage now s (.gameStateUpdate none none) = (s, [])) :=
  ⟨fun _ _ _ => rfl, fun _ _ _ => rfl, fun _ _ => rfl⟩

/-- A transport whose publish call succeeds. -/
def pubOk : Transport := fun _ => some ()

/-- A transport whose publish call throws. -/
def pubThrows : Transport := fun _ => none

/-- C10: `sendMessage` never throws (it is total) and returns a boolean
result determined by the transport: `(false, nothing published)` when no
room is set, `(false, nothing published)` when the publish call throws
(`pub m = none`), and `(true, the encoded message)` exactly when the
publish call accepts it — so the result is `true` iff the message
reached the transport, and nothing is ever published on a `false`
return. -/
theorem sendMessage_result_spec (room : Option Transport) (pub : Transport) (m : OutMsg) :
    sendMessage none m = (false, none)
    ∧ (pub m = none → sendMessage (some pub) m = (false, none))
    ∧ (pub m ≠ none → sendMessage (some pub) m = (true, some m))
    ∧ ((sendMessage room m).1 = true ↔ (sendMessage room m).2 = some m)
    ∧ ((sendMessage room m).1 = false → (sendMessage room m).2 = none) := by
  refine ⟨rfl, ?_, ?_, ?_, ?_⟩
  · intro hp
    simp [sendMessage, hp]
  · intro hp
    rcases hq : pub m with _ | u
    · exact absurd hq hp
    · simp [sendMessage, hq]
  · cases room with
    | none => simp [sendMessage]
    | some p =>
      rcases hq : p m with _ | u
      · simp [sendMessage, hq]
      · simp [sendMessage, hq]
  · cases room with
    | none => intro _; rfl
    | some p =>
      rcases hq : p m with _ | u
      · intro _; simp [sendMessage, hq]
      · intro h; simp [sendMessage, hq] at h

/-- Witness for C10: a throwing transport yields `(false, none)` and a
working one `(true, some msg)`, by the theorem at those transports. -/
theorem sendMessage_result_spec_witness :
    sendMessage (some pubThrows) (.vote "X") = (false, none)
    ∧ sendMessage (some pubOk) (.vote "X") = (true, some (.vote "X")) :=
  ⟨(sendMessage_result_spec (some pubThrows) pubThrows (.vote "X")).2.1 rfl,
   (sendMessage_result_spec (some pubOk) pubOk (.vote "X")).2.2.1 (by decide)⟩

/-! C4: the `turns_left` relation. -/

/-- A `debate_update` for speaker A, turn 3. -/
def c4Turn3Msg : Msg :=
  .gameStateUpdate none (some (.debateUpdate (some "A") (some "hi") (some 3)))

/-- A `day_phase_start{round:1}` delta (no payload players). -/
def c4DayMsg : Msg := .gameStateUpdate none (some (.dayPhaseStart (some 1)))

/-- The state after `debate_update{turn:3}` then `day_phase_start`:
`current_turn` was reset to 0 but `turns_left` kept its old value 5. -/
def c4Bad : GameState := (applyMessage 0 (applyMessage 0 sInit c4Turn3Msg).1 c4DayMsg).1

/-- Counterexample to C4: `c4Bad` is reachable from the initial state by
two reducer transitions, yet `turns_left = 5` while
`max(0, max_turns − current_turn) = max(0, 8 − 0) = 8` — the relation is
not an invariant because `day_phase_start` resets the turn counter
without recomputing `turns_left`. -/
theorem turns_left_invariant_cex :
    Reachable c4Bad
    ∧ c4Bad.debate.turns_left = 5
    ∧ c4Bad.debate.max_turns = 8
    ∧ c4Bad.debate.current_turn = 0
    ∧ ¬ ((c4Bad.debate.turns_left : ℤ)
          = max 0 ((c4Bad.debate.max_turns : ℤ) - (c4Bad.debate.current_turn : ℤ))) := by
  refine ⟨?_, by decide, by decide, by decide, by decide⟩
  exact Reachable.step _ 0 c4DayMsg (Reachable.step _ 0 c4Turn3Msg (Reachable.init _ _ _))

/-- C4 (amended): `turns_left = max(0, max_turns − current_turn)` holds
in the initial state and immediately after every `debate_update`
transition; it is not preserved by `day_phase_start` (which resets
`current_turn` but keeps the old `turns_left`) nor by full game-state
merges (which set `turns_left` and `max_turns` independently from the
payload). -/
theorem turns_left_after_debate_update :
    (∀ (lid : Option String) (n r : String),
        ((initState lid n r).debate.turns_left : ℤ)
          = max 0 (((initState lid n r).debate.max_turns : ℤ)
              - ((initState lid n r).debate.current_turn : ℤ)))
    ∧ ∀ (now : Nat) (s : GameState) (sp dl : Option String) (t? : Option Nat),
        (((applyMessage now s (.gameStateUpdate none (some (.debateUpdate sp dl t?)))).1.debate.turns_left : ℤ))
          = max 0
              ((((applyMessage now s (.gameStateUpdate none (some (.debateUpdate sp dl t?)))).1.debate.max_turns : ℤ))
                - (((applyMessage now s (.gameStateUpdate none (some (.debateUpdate sp dl t?)))).1.debate.current_turn : ℤ))) := by
  constructor
  · intro lid n r
    simp [initState]
  · intro now s sp dl t?
    simp only [applyMessage, updateBasedOnType]
    generalize jsOrNat t? (s.debate.current_turn + 1) = t
    omega

/-! C6: elimination monotonicity and id uniqueness. -/

/-- A `game_state` payload whose players list is `[A]`. -/
def c6GSA : GSPayload := { emptyGS with players := some [⟨"A", none, none, none⟩] }

/-- A `game_state` payload whose players list is `[A, A]` (duplicate
id, no `isAlive` field). -/
def c6GSAA : GSPayload :=
  { emptyGS with players := some [⟨"A", none, none, none⟩, ⟨"A", none, none, none⟩] }

/-- The reachable state in which player A has been exiled. -/
def c6Dead : GameState :=
  (applyMessage 0 (applyMessage 0 sInit (.gameStateUpdate (some c6GSA) none)).1 (exileMsg "A")).1

/-- The state after one further full `game_state` merge: A is alive
again and duplicated. -/
def c6Final : GameState := (applyMessage 0 c6Dead (.gameStateUpdate (some c6GSAA) none)).1

/-- Counterexample to C6: from the reachable state `c6Dead` with
`isAlive(A) = false`, a single `game_state` merge transition produces
`c6Final` where A's `isAlive` is back to `true` (revival) and the id
"A" occurs twice (non-unique ids): the merge sets
`isAlive := payload.isAlive !== undefined ? payload.isAlive : true` and
copies the payload list wholesale. -/
theorem elimination_monotonic_cex :
    Reachable c6Dead
    ∧ Reachable c6Final
    ∧ c6Final = (applyMessage 0 c6Dead (.gameStateUpdate (some c6GSAA) none)).1
    ∧ c6Dead.players.map (fun p => (p.id, p.isAlive)) = [("A", false)]
    ∧ c6Final.players.map (fun p => (p.id, p.isAlive)) = [("A", true), ("A", true)] := by
  refine ⟨?_, ?_, rfl, by decide, by decide⟩
  · exact Reachable.step _ 0 (exileMsg "A")
      (Reachable.step _ 0 (.gameStateUpdate (some c6GSA) none) (Reachable.init _ _ _))
  · exact Reachable.step _ 0 (.gameStateUpdate (some c6GSAA) none)
      (Reachable.step _ 0 (exileMsg "A")
        (Reachable.step _ 0 (.gameStateUpdate (some c6GSA) none) (Reachable.init _ _ _)))

/-- Pointwise relation of the amended C6: same identity, and alive only
if previously alive. -/
def playersRel (p' p : Player) : Prop :=
  p'.id = p.id ∧ p'.name = p.name ∧ (p'.isAlive = true → p.isAlive = true)

/-- Does the message carry a full `game_state` payload (triggering the
`handleGameStateUpdate` merge)? -/
def carriesGameState : Msg → Bool
  | .gameStateUpdate (some _) _ => true
  | _ => false

/-- Every list is pointwise related to itself. -/
theorem forall₂_playersRel_refl (l : List Player) : List.Forall₂ playersRel l l := by
  induction l with
  | nil => constructor
  | cons p ps ih => exact List.Forall₂.cons ⟨rfl, rfl, fun h => h⟩ ih

/-- The exile map relates the result pointwise to the original: ids and
names are kept and nobody is revived. -/
theorem forall₂_playersRel_exile (x? : Option String) (l : List Player) :
    List.Forall₂ playersRel (l.map (exileFn x?)) l := by
  induction l with
  | nil => constructor
  | cons p ps ih =>
    refine List.Forall₂.cons ?_ ih
    cases x? with
    | none => exact ⟨rfl, rfl, fun h => h⟩
    | some x =>
      by_cases h : p.id = x ∨ p.name = x
      · refine ⟨by simp [exileFn, h], by simp [exileFn, h], ?_⟩
        intro hfalse
        simp [exileFn, h] at hfalse
      · simp only [exileFn, if_neg h]
        exact ⟨rfl, rfl, fun h => h⟩

/-- C6 (amended): every transition that does not carry a full
`game_state` payload preserves each player's id and name in place
(hence preserves id uniqueness) and never flips `isAlive` from false
back to true; only the full `game_state` merge rebuilds the players
list from the payload and can revive players or introduce duplicate
ids. -/
theorem players_monotone_without_merge (now : Nat) (s : GameState) (m : Msg)
    (h : carriesGameState m = false) :
    List.Forall₂ playersRel ((applyMessage now s m).1.players) s.players := by
  cases m with
  | gameStateUpdate gs? ut? =>
    cases gs? with
    | some gs => simp [carriesGameState] at h
    | none =>
      cases ut? with
      | none => exact forall₂_playersRel_refl s.players
      | some ut =>
        cases ut with
        | playerExiled x? =>
          simpa [applyMessage, updateBasedOnType] using forall₂_playersRel_exile x? s.players
        | dayPhaseStart r? => exact forall₂_playersRel_refl s.players
        | nightPhaseStart r? => exact forall₂_playersRel_refl s.players
        | debateUpdate sp dl t? => exact forall₂_playersRel_refl s.players
        | votingPhase => exact forall₂_playersRel_refl s.players
        | votingStarted => exact forall₂_playersRel_refl s.players
        | voteReceived a b => exact forall₂_playersRel_refl s.players
        | votingEnded v? => exact forall₂_playersRel_refl s.players
        | votingResults r? => exact forall₂_playersRel_refl s.players
        | unknownUpdate tag => exact forall₂_playersRel_refl s.players
  | canSpeak to? pr? => exact forall₂_playersRel_refl s.players
  | speakingEnded => exact forall₂_playersRel_refl s.players
  | debateTurn => exact forall₂_playersRel_refl s.players
  | requestVote => exact forall₂_playersRel_refl s.players
  | announcement t? =>
    cases t? with
    | none => exact forall₂_playersRel_refl s.players
    | some t =>
      by_cases ht : t = "" <;> simp [applyMessage, ht] <;>
        exact fun x _ => ⟨rfl, rfl, fun hh => hh⟩
  | requestTargetSelection d? =>
    cases d? with
    | none => exact forall₂_playersRel_refl s.players
    | some d => exact forall₂_playersRel_refl s.players
  | unknown tag => exact forall₂_playersRel_refl s.players

/-- Witness for C6's amended theorem: the exile transition on a concrete
state is covered by the no-merge hypothesis. -/
theorem players_monotone_without_merge_witness :
    List.Forall₂ playersRel ((applyMessage 0 c2State (exileMsg "A")).1.players) c2State.players :=
  players_monotone_without_merge 0 c2State (exileMsg "A") (by decide)

/-! C9: the vote round-trip. -/

/-- After the local player (identity `me`) votes for X, then the server
echoes `vote_received{voter:"me", target:"Y"}`. -/
def c9AfterEcho : GameState :=
  (applyMessage 0 (handleVote (some pubOk) sInit "X").1 (voteMsg "me" "Y")).1

/-- Counterexample to C9: after the optimistic local vote for X and a
differing authoritative echo Y for the local identity,
`voting.voted_player` is still X, not the echoed Y — the
`vote_received` case never writes `voted_player`, so the echo does not
overwrite the optimistic local write. -/
theorem vote_echo_cex :
    sInit.currentPlayer.id = some "me"
    ∧ c9AfterEcho.voting.voted_player = some "X"
    ∧ c9AfterEcho.voting.voted_player ≠ some "Y"
    ∧ lookupVote c9AfterEcho.voting.votes "me" = some "Y" := by
  decide

/-- C9 (amended): encoding a local vote for T and applying the echo
`vote_received{voter:L, target:T'}` leaves `voting.votes[L] = T'` (the
echo is authoritative for the votes map) while `voting.voted_player`
keeps the optimistic local value T; the two agree exactly when the echo
confirms the local choice (T' = T). -/
theorem vote_echo_updates_votes_not_voted_player
    (now : Nat) (pub : Transport) (s : GameState) (L T T' : String) :
    ((applyMessage now (handleVote (some pub) s T).1 (voteMsg L T')).1).voting.voted_player = some T
    ∧ lookupVote ((applyMessage now (handleVote (some pub) s T).1 (voteMsg L T')).1).voting.votes L
        = some T'
    ∧ (T' = T →
        ((applyMessage now (handleVote (some pub) s T).1 (voteMsg L T')).1).voting.voted_player
          = some T') := by
  refine ⟨?_, ?_, ?_⟩
  · simp [handleVote, voteMsg, applyMessage, updateBasedOnType]
  · simp only [handleVote, voteMsg, applyMessage, updateBasedOnType]
    exact lookupVote_setVote_self _ L T'
  · intro hTT
    subst hTT
    simp [handleVote, voteMsg, applyMessage, updateBasedOnType]

/-- Witness for C9's amended theorem with a confirming echo. -/
theorem vote_echo_updates_votes_witness :
    ((applyMessage 0 (handleVote (some pubOk) sInit "X").1 (voteMsg "me" "X")).1).voting.voted_player
      = some "X"
    ∧ lookupVote ((applyMessage 0 (handleVote (some pubOk) sInit "X").1 (voteMsg "me" "X")).1).voting.votes "me"
        = some "X" :=
  ⟨(vote_echo_updates_votes_not_voted_player 0 pubOk sInit "me" "X" "X").1,
   (vote_echo_updates_votes_not_voted_player 0 pubOk sInit "me" "X" "X").2.1⟩

/-! C5: the speak-timeout timer discipline. -/

/-- Firing due timers only removes timers and keeps the stored handle,
so the timer sanity invariant is preserved. -/
theorem timerInv_fireDue (c : ClientState) (t : Nat) (h : TimerInv c) :
    TimerInv (fireDue c t) := by
  unfold fireDue
  split
  · refine ⟨le_trans (List.length_filter_le _ _) h.1, ?_⟩
    intro tm htm
    exact h.2 tm (List.mem_filter.mp htm).1
  · exact h

/-- Under the invariant, `clearTimeout` on the stored handle cancels
every pending timer. -/
theorem cancelSpeak_timers_eq_nil (c : ClientState) (h : TimerInv c) :
    (cancelSpeak c).timers = [] := by
  rcases hsr : c.speakRef with _ | hd
  · have hnil : c.timers = [] := by
      cases htm : c.timers with
      | nil => rfl
      | cons a l =>
        have h2 := h.2 a (by rw [htm]; exact List.mem_cons_self a l)
        rw [hsr] at h2
        cases h2
    simp [cancelSpeak, hsr, hnil]
  · simp only [cancelSpeak, hsr]
    apply List.filter_eq_nil_iff.mpr
    intro tm htm
    have h2 := h.2 tm htm
    rw [hsr] at h2
    have hid : tm.id = hd := by injection h2 with h'; exact h'.symm
    simp [hid]

/-- Every single event step preserves the timer sanity invariant: in
particular a `can_speak` message cancels the stored pending timer
before scheduling its replacement. -/
theorem timerInv_clientStep (c : ClientState) (ev : Nat × Msg) (h : TimerInv c) :
    TimerInv (clientStep c ev) := by
  obtain ⟨t, m⟩ := ev
  have h1 : TimerInv (fireDue c t) := timerInv_fireDue c t h
  cases m with
  | canSpeak to? pr? =>
    have h2 : (cancelSpeak (fireDue c t)).timers = [] :=
      cancelSpeak_timers_eq_nil _ h1
    simp only [clientStep]
    refine ⟨?_, ?_⟩
    · simp [h2]
    · intro tm htm
      simp only [h2, List.nil_append, List.mem_singleton] at htm
      rw [htm]
  | gameStateUpdate gs? ut? => exact ⟨h1.1, fun tm htm => h1.2 tm htm⟩
  | speakingEnded => exact ⟨h1.1, fun tm htm => h1.2 tm htm⟩
  | debateTurn => exact ⟨h1.1, fun tm htm => h1.2 tm htm⟩
  | requestVote => exact ⟨h1.1, fun tm htm => h1.2 tm htm⟩
  | announcement t? => exact ⟨h1.1, fun tm htm => h1.2 tm htm⟩
  | requestTargetSelection d? => exact ⟨h1.1, fun tm htm => h1.2 tm htm⟩
  | unknown tag => exact ⟨h1.1, fun tm htm => h1.2 tm htm⟩

/-- The invariant holds along any timed run. -/
theorem timerInv_runTimed (c : ClientState) (evs : List (Nat × Msg)) (h : TimerInv c) :
    TimerInv (runTimed c evs) := by
  induction evs generalizing c with
  | nil => exact h
  | cons e es ih => exact ih _ (timerInv_clientStep c e h)

/-- A fresh mount satisfies the timer invariant. -/
theorem timerInv_init (g : GameState) : TimerInv (initClientOf g) :=
  ⟨by simp [initClientOf], by simp [initClientOf]⟩

/-- The spec's two-prompt run: `can_speak(timeout:5)` at t = 0 ms and
again at t = 1000 ms, within the first window. -/
def c5Events : List (Nat × Msg) :=
  [(0, .canSpeak (some 5) none), (1000, .canSpeak (some 5) none)]

/-- The client state right after the second prompt. -/
def c5End : ClientState := runTimed (initClientOf sInit) c5Events

/-- C5: the speak-timeout is cancel-on-replace.  (i) Along every timed
run from a fresh mount at most one speak-timeout timer is pending and it
is the one in `speakTimeoutRef`; (ii) handling a `can_speak` message
leaves exactly its own auto-clear pending, `timeout * 1000` ms later —
the previously stored timer is cancelled; (iii) in the spec's run (two
prompts 1000 ms apart, 5 s timeouts), `can_speak` is still true at
t = 5500 ms (the first timer never fired), the single pending auto-clear
is at t = 6000 ms, and exactly that one fires: `can_speak` is false at
t = 6500 ms. -/
theorem speak_timeout_cancel_on_replace :
    (∀ (g : GameState) (evs : List (Nat × Msg)), TimerInv (runTimed (initClientOf g) evs))
    ∧ (∀ (c : ClientState) (t : Nat) (to? : Option Nat) (pr? : Option String),
        TimerInv c →
          (clientStep c (t, .canSpeak to? pr?)).timers.map Timer.fireTime
            = [t + (jsOrNat to? 5) * 1000])
    ∧ ((stateAt c5End 5500).interaction.can_speak = true
        ∧ (stateAt c5End 6500).interaction.can_speak = false
        ∧ c5End.timers.map Timer.fireTime = [6000]) := by
  refine ⟨?_, ?_, by decide, by decide, by decide⟩
  · intro g evs
    exact timerInv_runTimed _ _ (timerInv_init g)
  · intro c t to? pr? hInv
    have h2 : (cancelSpeak (fireDue c t)).timers = [] :=
      cancelSpeak_timers_eq_nil _ (timerInv_fireDue c t hInv)
    simp [clientStep, h2]

/-- Witness for C5 at the concrete two-prompt run. -/
theorem speak_timeout_cancel_witness :
    TimerInv c5End
    ∧ (clientStep (initClientOf sInit) (0, .canSpeak (some 5) none)).timers.map Timer.fireTime
        = [0 + (jsOrNat (some 5) 5) * 1000] :=
  ⟨speak_timeout_cancel_on_replace.1 sInit c5Events,
   speak_timeout_cancel_on_replace.2.1 (initClientOf sInit) 0 (some 5) none (timerInv_init sInit)⟩

end WerewolfClient
